import Mathlib

/-!
Verification of the Vans delivery-data dashboard (`app.py`).

The development shallowly embeds the data model and the original logic of
the dashboard: the column normalizer `_flatten_columns`, the dataset loader
`load_excel_any`, the sidebar filter engine, the KPI metrics block, the
chart-building block, and the KPI lines of the PDF export.  Data frames are
modelled as lists of rows of cells; missing values (`NaN`) are the explicit
cell `Cell.na`; pandas floats are idealized as rationals.
-/

deriving instance DecidableEq for Except

namespace Vans

/-- A cell of a data frame: missing (`NaN`), text, or numeric. -/
inductive Cell where
  | na : Cell
  | str : String → Cell
  | num : Rat → Cell
deriving DecidableEq

/-- A data frame: column names, row index labels, and rows of cells, each
row aligned positionally with `cols`. -/
structure Table where
  cols : List String
  index : List Nat
  rows : List (List Cell)
deriving DecidableEq

/-- `df[c]` for a single row: the cell at the position of column `c`,
`Cell.na` when the column or the position is absent. -/
def getCol (cols : List String) (r : List Cell) (c : String) : Cell :=
  match cols.findIdx? (fun x => x == c) with
  | some i => r.getD i Cell.na
  | none => Cell.na

/-- The series `df[c]`: one cell per row. -/
def colCells (t : Table) (c : String) : List Cell :=
  t.rows.map (fun r => getCol t.cols r c)

/-- A raw column label as handed to `_flatten_columns`: either a plain
label (its Python `str` form) or a composite tuple/list of parts, each part
kept as its Python `str` form. -/
inductive Label where
  | single : String → Label
  | composite : List String → Label
deriving DecidableEq

/-- Python `str.strip()`: drop leading and trailing whitespace. -/
def pyStrip (s : String) : String :=
  ⟨((s.data.dropWhile Char.isWhitespace).reverse.dropWhile Char.isWhitespace).reverse⟩

/-- Left-to-right non-overlapping replacement on character lists; the fuel
bounds the number of scanned positions. -/
def replaceAux (pat rep : List Char) : Nat → List Char → List Char
  | _, [] => []
  | 0, l => l
  | Nat.succ fuel, c :: cs =>
    if pat.isPrefixOf (c :: cs) && !pat.isEmpty then
      rep ++ replaceAux pat rep fuel (List.drop (pat.length - 1) cs)
    else c :: replaceAux pat rep fuel cs

/-- Python `str.replace(pat, rep)`. -/
def pyReplace (s pat rep : String) : String :=
  ⟨replaceAux pat.data rep.data s.data.length s.data⟩

/-- Python `repr` of a string part, used by the tuple `str` form. -/
def pyReprStr (s : String) : String := "\x27" ++ s ++ "\x27"

/-- Python `str` of the original label (a one-element tuple prints with a
trailing comma). -/
def Label.pyStr : Label → String
  | .single s => s
  | .composite [p] => "(" ++ pyReprStr p ++ ",)"
  | .composite ps => "(" ++ String.intercalate ", " (ps.map pyReprStr) ++ ")"

/-- One step of `_flatten_columns` (app.py lines 37-42): a composite label
keeps the parts whose string form is not `"nan"`, joins them with `" - "`
and strips the result; a plain label is stripped. -/
def flattenOne : Label → String
  | .single s => pyStrip s
  | .composite ps => pyStrip (String.intercalate " - " (ps.filter (fun p => p != "nan")))

/-- `_flatten_columns` (app.py lines 35-43). -/
def flattenColumns (ls : List Label) : List String := ls.map flattenOne

/-- The claim's reading of the composite branch: join the non-marker parts
with `" - "` but do not strip the joined result (the plain branch is still
the trimmed string form). -/
def flattenOneClaim : Label → String
  | .single s => pyStrip s
  | .composite ps => String.intercalate " - " (ps.filter (fun p => p != "nan"))

/-- The amended reading: exactly the source behaviour, written from the
amended claim's words (join non-marker parts with `" - "`, then strip). -/
def flattenOneAmended : Label → String
  | .single s => pyStrip s
  | .composite ps => pyStrip (String.intercalate " - " (ps.filter (fun p => p != "nan")))

/-- The per-sheet column cleanup of the loader (app.py line 56):
`c.replace("Unnamed: ", "").strip()`. -/
def cleanCols (cs : List String) : List String :=
  cs.map (fun c => pyStrip (pyReplace c "Unnamed: " ""))

/-- One parsed sheet of the workbook: its raw column labels and its rows. -/
structure Sheet where
  cols : List Label
  rows : List (List Cell)

/-- The per-sheet part of `load_excel_any` (app.py lines 49-57): normalize
the columns, keep the rows; a freshly read sheet has index `0..n-1`. -/
def normFrame (s : Sheet) : Table :=
  { cols := cleanCols (flattenColumns s.cols)
    index := List.range s.rows.length
    rows := s.rows }

/-- `pd.concat(frames, ignore_index=True)` for frames with matching
columns: the first frame's columns, the rows appended in order, and a fresh
sequential index `0..total-1`. -/
def concatIgnoreIndex (fs : List Table) : Table :=
  { cols := ((fs.head?).map Table.cols).getD []
    index := List.range ((fs.map (fun f => f.rows.length)).sum)
    rows := (fs.map Table.rows).flatten }

/-- `load_excel_any` (app.py lines 45-58) on a workbook whose sheets all
parsed: normalize each sheet, concatenate row-wise ignoring the index. -/
def loadExcelAny (sheets : List Sheet) : Table :=
  concatIgnoreIndex (sheets.map normFrame)

/-- pandas `Series.isin(sel)` for one cell, where `sel` is a multiselect
selection.  The option lists offered by the sidebar come from `dropna()`,
so they never contain `NaN`; a missing cell therefore never matches. -/
def cellIsin (c : Cell) (sel : List Cell) : Bool :=
  match c with
  | .na => false
  | v => decide (v ∈ sel)

/-- pandas `Series.between(lo, hi)` for one cell: inclusive on both ends,
false on missing values. -/
def cellBetween (c : Cell) (lo hi : Int) : Bool :=
  match c with
  | .num q => decide ((lo : Rat) ≤ q) && decide (q ≤ (hi : Rat))
  | _ => false

/-- The user's sidebar state: one multiselect selection per categorical
filter column, and the two ends of the age slider. -/
structure FilterSelection where
  catSel : String → List Cell
  ageLo : Int
  ageHi : Int

/-- `df[mask]`: keep the rows (with their index labels) whose cells satisfy
the predicate. -/
def Table.filterRows (t : Table) (p : List Cell → Bool) : Table :=
  let kept := (t.index.zip t.rows).filter (fun ir => p ir.2)
  { cols := t.cols, index := kept.map Prod.fst, rows := kept.map Prod.snd }

/-- The fixed categorical filter columns (app.py line 82). -/
def filterCols : List String := ["Company", "Employment Status", "Areas Covered"]

/-- The numeric filter column (app.py line 87). -/
def ageCol : String := "Age (Years)"

/-- One iteration of the categorical filter loop (app.py lines 82-86):
when `c` is a column of the record table, keep the view rows whose value in
`c` is in the selection. -/
def catFilterStep (tAll : Table) (sel : String → List Cell) (v : Table) (c : String) : Table :=
  if c ∈ tAll.cols then
    v.filterRows (fun r => cellIsin (getCol v.cols r c) (sel c))
  else v

/-- The whole filter engine (app.py lines 80-90): the categorical loop,
then the inclusive age-range filter when the age column exists. -/
def applyFilters (tAll : Table) (fs : FilterSelection) : Table :=
  let v := filterCols.foldl (catFilterStep tAll fs.catSel) tAll
  if ageCol ∈ tAll.cols then
    v.filterRows (fun r => cellBetween (getCol v.cols r ageCol) fs.ageLo fs.ageHi)
  else v

/-- A total order on cells used to model Python `sorted` and pandas mode
ordering: missing < numeric < text, numerics by value, texts by code
order. -/
def cellRank : Cell → Nat
  | .na => 0
  | .num _ => 1
  | .str _ => 2

/-- Boolean comparison on cells, see `cellRank`. -/
def cellLeb : Cell → Cell → Bool
  | .num a, .num b => decide (a ≤ b)
  | .str a, .str b => decide (a ≤ b)
  | a, b => decide (cellRank a ≤ cellRank b)

/-- Insertion step of the sort. -/
def insertCell (x : Cell) : List Cell → List Cell
  | [] => [x]
  | y :: ys => if cellLeb x y then x :: y :: ys else y :: insertCell x ys

/-- `sorted(...)` on cells (insertion sort; stable ascending). -/
def sortCells : List Cell → List Cell
  | [] => []
  | x :: xs => insertCell x (sortCells xs)

/-- `sorted([v for v in df_all[c].dropna().unique()])` (app.py line 84):
the sorted distinct non-missing values of column `c`, the options and the
default selection of that column's multiselect. -/
def defaultOptions (t : Table) (c : String) : List Cell :=
  sortCells ((colCells t c).filter (fun x => x != Cell.na)).dedup

/-- The numeric content of a cell, `none` for missing or textual cells
(the numeric columns of the workbook hold numbers or `NaN`). -/
def cellNum : Cell → Option Rat
  | .num q => some q
  | _ => none

/-- pandas `Series.mean()`: the mean of the non-missing numeric values,
`NaN` (here `none`) when there are none. -/
def pandasMean (cells : List Cell) : Option Rat :=
  let vs := cells.filterMap cellNum
  if vs.isEmpty then none else some (vs.sum / (vs.length : Rat))

/-- pandas mean of a boolean series (`.eq("Yes").mean()`): the fraction of
`true` entries, `NaN` (here `none`) on an empty series. -/
def boolMean (bs : List Bool) : Option Rat :=
  if bs.isEmpty then none else some ((bs.count true : Rat) / (bs.length : Rat))

/-- `df_view["Medical Insurance"].eq("Yes").mean() * 100` (app.py line 98):
the raw insurance percentage of the view. -/
def insurancePct (t : Table) : Option Rat :=
  (boolMean ((colCells t "Medical Insurance").map (fun c => c == Cell.str "Yes"))).map
    (fun m => m * 100)

/-- Floor of a rational as an integer. -/
def ratFloor (q : Rat) : Int := q.num.fdiv (q.den : Int)

/-- Python round-half-to-even on a rational, to an integer. -/
def roundHalfEven (q : Rat) : Int :=
  let n := ratFloor q
  let r := q - (n : Rat)
  if r < 1 / 2 then n
  else if 1 / 2 < r then n + 1
  else if n % 2 = 0 then n else n + 1

/-- Python `round(x, 1)` followed by display: one decimal digit,
round-half-even. -/
def fmtFixed1 (q : Rat) : String :=
  let n := roundHalfEven (q * 10)
  let m := n.natAbs
  (if n < 0 then "-" else "") ++ toString (m / 10) ++ "." ++ toString (m % 10)

/-- Zero-padding of a 3-digit thousands group. -/
def pad3 (n : Nat) : String :=
  if n < 10 then "00" ++ toString n
  else if n < 100 then "0" ++ toString n
  else toString n

/-- Thousands-separated decimal form of a natural number. -/
def commaSep (n : Nat) : String :=
  if _h : n < 1000 then toString n
  else commaSep (n / 1000) ++ "," ++ pad3 (n % 1000)
termination_by n
decreasing_by
  exact Nat.div_lt_self (by omega) (by omega)

/-- Python `f"{x:,.0f}"`: round-half-even to an integer, thousands
separators. -/
def fmtComma0 (q : Rat) : String :=
  let n := roundHalfEven q
  (if n < 0 then "-" else "") ++ commaSep n.natAbs

/-- Display of `round(mean, 1)`, `"nan"` when the mean is `NaN`. -/
def fmtMeanRound1 : Option Rat → String
  | none => "nan"
  | some q => fmtFixed1 q

/-- Display of `f"{pct:.1f}%"`, `"nan%"` when the percentage is `NaN`. -/
def fmtPct1 : Option Rat → String
  | none => "nan%"
  | some q => fmtFixed1 q ++ "%"

/-- Display of `f"{mean:,.0f} EGP"`, `"nan EGP"` when the mean is `NaN`. -/
def fmtIncome : Option Rat → String
  | none => "nan EGP"
  | some q => fmtComma0 q ++ " EGP"

/-- Display of a mode value (`st.metric` shows its string form). -/
def cellDisplay : Cell → String
  | .na => "nan"
  | .str s => s
  | .num q => toString q.num ++ (if q.den == 1 then "" else "/" ++ toString q.den)

/-- pandas `Series.mode()`: the non-missing values of maximal frequency,
sorted ascending. -/
def seriesMode (cells : List Cell) : List Cell :=
  let vals := cells.filter (fun x => x != Cell.na)
  let uniq := vals.dedup
  let maxCount := (uniq.map (fun v => vals.count v)).foldr max 0
  sortCells (uniq.filter (fun v => vals.count v == maxCount))

/-- The most-common-employment metric (app.py line 103):
`mode()[0] if not series.empty else "N/A"`.  Indexing `[0]` on an empty
mode result raises a `KeyError`, modelled as the error case. -/
def modeMetricResult (cells : List Cell) : Except String String :=
  if !cells.isEmpty then
    match (seriesMode cells).head? with
    | some c => Except.ok (cellDisplay c)
    | none => Except.error "KeyError: 0"
  else Except.ok "N/A"

/-- The net-income column name. -/
def netIncomeCol : String := "Net Income (Gross - All Expenses) (EGP)"

/-- KPI line 1 (app.py lines 95-96). -/
def deliveriesLine (t : Table) : List (String × String) :=
  if "Deliveries per day" ∈ t.cols then
    [("Avg Deliveries/day", fmtMeanRound1 (pandasMean (colCells t "Deliveries per day")))]
  else []

/-- KPI line 2 (app.py lines 97-99). -/
def insuranceLine (t : Table) : List (String × String) :=
  if "Medical Insurance" ∈ t.cols then
    [("% with Medical Insurance", fmtPct1 (insurancePct t))]
  else []

/-- KPI line 3 (app.py lines 100-101). -/
def netIncomeLine (t : Table) : List (String × String) :=
  if netIncomeCol ∈ t.cols then
    [("Avg Net Income", fmtIncome (pandasMean (colCells t netIncomeCol)))]
  else []

/-- The first three KPI lines of the metrics panel. -/
def panelBase (t : Table) : List (String × String) :=
  deliveriesLine t ++ insuranceLine t ++ netIncomeLine t

/-- The metrics panel (app.py lines 93-104) as (label, value) lines; the
mode metric can raise, which aborts the render. -/
def panelMetrics (t : Table) : Except String (List (String × String)) :=
  if "Employment Status" ∈ t.cols then
    match modeMetricResult (colCells t "Employment Status") with
    | Except.ok m => Except.ok (panelBase t ++ [("Most Common Employment", m)])
    | Except.error e => Except.error e
  else Except.ok (panelBase t)

/-- The KPI text lines of the PDF export (app.py lines 179-186). -/
def pdfMetricLines (t : Table) : List String :=
  (if "Deliveries per day" ∈ t.cols then
    ["Avg Deliveries/day: " ++ fmtMeanRound1 (pandasMean (colCells t "Deliveries per day"))]
  else [])
  ++ (if "Medical Insurance" ∈ t.cols then
    ["% with Medical Insurance: " ++ fmtPct1 (insurancePct t)]
  else [])
  ++ (if netIncomeCol ∈ t.cols then
    ["Avg Net Income: " ++ fmtIncome (pandasMean (colCells t netIncomeCol))]
  else [])

/-- A chart specification: the plotting call with the data frame and the
column names it was given (the rendering itself is external). -/
inductive Figure where
  | pie : Table → String → String → Figure
  | bar : Table → String → String → String → String → Figure
  | histogram : Table → String → Nat → String → Figure
  | box : Table → String → String → String → Figure
  | stackedBar : Table → String → String → String → String → Figure
deriving DecidableEq

/-- The four expense columns read by the stacked chart (app.py
lines 158-159). -/
def expenseCols : List String :=
  ["Fuel Expenses (EGP)", "Maintenance Costs (EGP)", "Financing/Lease (EGP)",
   "Other Expenses (licenses, permits, fines, etc....)"]

/-- Chart 1 (app.py lines 135-138): employment-status pie. -/
def chart1 (t : Table) : List (String × Figure) :=
  if "Employment Status" ∈ t.cols then
    [("pie.png", Figure.pie t "Employment Status" "Employment Status Share")]
  else []

/-- Chart 2 (app.py lines 140-144): deliveries by company. -/
def chart2 (t : Table) : List (String × Figure) :=
  if "Company" ∈ t.cols ∧ "Deliveries per day" ∈ t.cols then
    [("deliveries.png",
      Figure.bar t "Company" "Deliveries per day" "group" "Deliveries per Day by Company")]
  else []

/-- Chart 3 (app.py lines 146-149): age histogram. -/
def chart3 (t : Table) : List (String × Figure) :=
  if ageCol ∈ t.cols then
    [("age.png", Figure.histogram t ageCol 10 "Age Distribution")]
  else []

/-- Chart 4 (app.py lines 151-155): net income by employment status. -/
def chart4 (t : Table) : List (String × Figure) :=
  if netIncomeCol ∈ t.cols ∧ "Employment Status" ∈ t.cols then
    [("income.png",
      Figure.box t "Employment Status" netIncomeCol "Net Income by Employment Status")]
  else []

/-- The rows of the group with key `k` under `groupby(key)`. -/
def groupRows (t : Table) (key : String) (k : Cell) : List (List Cell) :=
  t.rows.filter (fun r => getCol t.cols r key == k)

/-- The group keys of `groupby(key)`: distinct non-missing key values,
sorted ascending. -/
def groupKeys (t : Table) (key : String) : List Cell :=
  sortCells ((colCells t key).filter (fun x => x != Cell.na)).dedup

/-- `groupby(key)[cols].mean().reset_index()` once the selected columns
exist: one row per key, the per-group means of each selected column. -/
def groupbyMeanTable (t : Table) (key : String) (cols : List String) : Table :=
  let ks := groupKeys t key
  { cols := key :: cols
    index := List.range ks.length
    rows := ks.map (fun k =>
      k :: cols.map (fun c =>
        match pandasMean ((groupRows t key k).map (fun r => getCol t.cols r c)) with
        | some q => Cell.num q
        | none => Cell.na)) }

/-- `melt(id_vars=idc, var_name=varName, value_name=valName)`: one record
per (value column, row) pair, column-major, fresh sequential index. -/
def meltTable (t : Table) (idc varName valName : String) : Table :=
  let valueCols := t.cols.filter (fun c => c != idc)
  let recs := (valueCols.map (fun c =>
    t.rows.map (fun r => [getCol t.cols r idc, Cell.str c, getCol t.cols r c]))).flatten
  { cols := [idc, varName, valName]
    index := List.range recs.length
    rows := recs }

/-- Chart 5 (app.py lines 157-164): guarded only on the fuel-expense and
company columns; the four-column selection inside `groupby(...)[[...]]`
raises a `KeyError` when any selected column is absent. -/
def chart5 (t : Table) : Except String (List (String × Figure)) :=
  if "Fuel Expenses (EGP)" ∈ t.cols ∧ "Company" ∈ t.cols then
    if expenseCols.all (fun c => decide (c ∈ t.cols)) then
      Except.ok
        [("expenses.png",
          Figure.stackedBar
            (meltTable (groupbyMeanTable t "Company" expenseCols)
              "Company" "Expense Type" "Avg Expense")
            "Company" "Avg Expense" "Expense Type" "Average Expenses by Company")]
    else Except.error "KeyError"
  else Except.ok []

/-- The whole chart-building block (app.py lines 133-164): the retained
chart list, or the error that aborts the page when chart 5 raises. -/
def buildCharts (t : Table) : Except String (List (String × Figure)) :=
  match chart5 t with
  | Except.ok c5 => Except.ok (chart1 t ++ chart2 t ++ chart3 t ++ chart4 t ++ c5)
  | Except.error e => Except.error e

/-- Concrete record table used to exercise the filter engine. -/
def t1 : Table :=
  { cols := ["Company", "Age (Years)"]
    index := [0, 1, 2]
    rows := [[Cell.str "Acme", Cell.num 30],
             [Cell.str "Beta", Cell.num 30],
             [Cell.str "Acme", Cell.num 70]] }

/-- Concrete filter selection: Acme only, ages 18 to 65. -/
def fs1 : FilterSelection :=
  { catSel := fun _ => [Cell.str "Acme"], ageLo := 18, ageHi := 65 }

/-- First sheet of a concrete two-sheet workbook. -/
def sheetA : Sheet :=
  { cols := [Label.single "Company", Label.composite ["Age", "nan"]]
    rows := [[Cell.str "A", Cell.num 30], [Cell.str "B", Cell.num 40]] }

/-- Second sheet; its normalized columns match the first sheet's. -/
def sheetB : Sheet :=
  { cols := [Label.single " Company ", Label.composite ["Age"]]
    rows := [[Cell.str "C", Cell.num 50]] }

/-- Concrete view having the fuel-expense and company columns but missing
the other three expense columns. -/
def t4 : Table :=
  { cols := ["Company", "Fuel Expenses (EGP)"]
    index := [0]
    rows := [[Cell.str "A", Cell.num 10]] }

/-- Concrete view with all four expense columns present. -/
def t4ok : Table :=
  { cols := ["Company", "Fuel Expenses (EGP)", "Maintenance Costs (EGP)",
             "Financing/Lease (EGP)",
             "Other Expenses (licenses, permits, fines, etc....)"]
    index := [0]
    rows := [[Cell.str "A", Cell.num 10, Cell.num 1, Cell.num 2, Cell.num 3]] }

/-- Concrete view whose only metric column is the employment status. -/
def t5 : Table :=
  { cols := ["Employment Status"], index := [0], rows := [[Cell.str "Courier"]] }

/-- Concrete empty view with an employment-status column. -/
def t7 : Table :=
  { cols := ["Employment Status"], index := [], rows := [] }

/-- Concrete view with 3 "Yes" and 1 "No" medical-insurance rows. -/
def t8 : Table :=
  { cols := ["Medical Insurance"]
    index := [0, 1, 2, 3]
    rows := [[Cell.str "Yes"], [Cell.str "Yes"], [Cell.str "Yes"], [Cell.str "No"]] }

/-- Concrete table with one missing value in its company column. -/
def t9 : Table :=
  { cols := ["Company"], index := [0, 1], rows := [[Cell.str "A"], [Cell.na]] }

/-- Concrete non-empty view whose employment-status column is all
missing. -/
def t10 : Table :=
  { cols := ["Employment Status"], index := [0], rows := [[Cell.na]] }

theorem filterRows_cols (t : Table) (p : List Cell → Bool) :
    (t.filterRows p).cols = t.cols := rfl

theorem map_snd_zip_sublist {α β : Type} :
    ∀ (l1 : List α) (l2 : List β), ((l1.zip l2).map Prod.snd).Sublist l2
  | [], _ => by simp
  | _ :: _, [] => by simp
  | a :: l1, b :: l2 => by
    simpa using (map_snd_zip_sublist l1 l2).cons₂ b

theorem filterRows_sublist (t : Table) (p : List Cell → Bool) :
    (t.filterRows p).rows.Sublist t.rows := by
  have h1 : (((t.index.zip t.rows).filter (fun ir => p ir.2)).map Prod.snd).Sublist
      ((t.index.zip t.rows).map Prod.snd) :=
    (List.filter_sublist _).map Prod.snd
  exact h1.trans (map_snd_zip_sublist _ _)

theorem mem_filterRows {t : Table} {p : List Cell → Bool} {r : List Cell}
    (h : r ∈ (t.filterRows p).rows) : r ∈ t.rows ∧ p r = true := by
  rcases List.mem_map.mp h with ⟨ir, hir, rfl⟩
  have hmf := List.mem_filter.mp hir
  refine ⟨?_, by simpa using hmf.2⟩
  exact (map_snd_zip_sublist t.index t.rows).subset (List.mem_map_of_mem Prod.snd hmf.1)

theorem map_snd_filter_zip {α β : Type} (p : β → Bool) :
    ∀ (l1 : List α) (l2 : List β), l1.length = l2.length →
      ((l1.zip l2).filter (fun ab => p ab.2)).map Prod.snd = l2.filter p
  | [], [], _ => rfl
  | [], _ :: _, h => by simp at h
  | _ :: _, [], h => by simp at h
  | a :: l1, b :: l2, h => by
    rw [List.zip_cons_cons, List.filter_cons, List.filter_cons]
    by_cases hb : p b
    · simp [hb, map_snd_filter_zip p l1 l2 (by simpa using h)]
    · simp [hb, map_snd_filter_zip p l1 l2 (by simpa using h)]

theorem filterRows_rows_eq {t : Table} (hwf : t.index.length = t.rows.length)
    (p : List Cell → Bool) : (t.filterRows p).rows = t.rows.filter p :=
  map_snd_filter_zip p t.index t.rows hwf

theorem catFilterStep_cols (tAll : Table) (sel : String → List Cell)
    (v : Table) (c : String) : (catFilterStep tAll sel v c).cols = v.cols := by
  unfold catFilterStep
  split <;> rfl

theorem catFilterStep_sublist (tAll : Table) (sel : String → List Cell)
    (v : Table) (c : String) :
    (catFilterStep tAll sel v c).rows.Sublist v.rows := by
  unfold catFilterStep
  split
  · exact filterRows_sublist _ _
  · exact List.Sublist.refl _

theorem foldCat_cols (tAll : Table) (sel : String → List Cell) :
    ∀ (cs : List String) (v : Table),
      (cs.foldl (catFilterStep tAll sel) v).cols = v.cols
  | [], _ => rfl
  | c :: cs, v => by
    rw [List.foldl_cons, foldCat_cols tAll sel cs _, catFilterStep_cols]

theorem foldCat_sublist (tAll : Table) (sel : String → List Cell) :
    ∀ (cs : List String) (v : Table),
      (cs.foldl (catFilterStep tAll sel) v).rows.Sublist v.rows
  | [], _ => List.Sublist.refl _
  | c :: cs, v => by
    rw [List.foldl_cons]
    exact (foldCat_sublist tAll sel cs _).trans (catFilterStep_sublist tAll sel v c)

theorem mem_foldCat (tAll : Table) (sel : String → List Cell) :
    ∀ (cs : List String) (v : Table) (r : List Cell),
      r ∈ (cs.foldl (catFilterStep tAll sel) v).rows →
      r ∈ v.rows ∧ ∀ c ∈ cs, c ∈ tAll.cols →
        cellIsin (getCol v.cols r c) (sel c) = true
  | [], _, _, h => ⟨h, by simp⟩
  | c0 :: cs, v, r, h => by
    rw [List.foldl_cons] at h
    have ih := mem_foldCat tAll sel cs (catFilterStep tAll sel v c0) r h
    have hcols : (catFilterStep tAll sel v c0).cols = v.cols :=
      catFilterStep_cols tAll sel v c0
    by_cases hc : c0 ∈ tAll.cols
    · have hmem0 : r ∈ (catFilterStep tAll sel v c0).rows := ih.1
      unfold catFilterStep at hmem0
      rw [if_pos hc] at hmem0
      have hstep := mem_filterRows hmem0
      refine ⟨hstep.1, ?_⟩
      intro c hcmem hcall
      rcases List.mem_cons.mp hcmem with rfl | hcs
      · exact hstep.2
      · have := ih.2 c hcs hcall
        rwa [hcols] at this
    · have hid : catFilterStep tAll sel v c0 = v := by
        unfold catFilterStep
        rw [if_neg hc]
      rw [hid] at ih
      refine ⟨ih.1, ?_⟩
      intro c hcmem hcall
      rcases List.mem_cons.mp hcmem with rfl | hcs
      · exact absurd hcall hc
      · exact ih.2 c hcs hcall

theorem applyFilters_eq (tAll : Table) (fs : FilterSelection) :
    applyFilters tAll fs =
      if ageCol ∈ tAll.cols then
        (filterCols.foldl (catFilterStep tAll fs.catSel) tAll).filterRows
          (fun r => cellBetween
            (getCol (filterCols.foldl (catFilterStep tAll fs.catSel) tAll).cols r ageCol)
            fs.ageLo fs.ageHi)
      else filterCols.foldl (catFilterStep tAll fs.catSel) tAll := rfl

theorem mem_insertCell {y x : Cell} {l : List Cell} :
    y ∈ insertCell x l ↔ y = x ∨ y ∈ l := by
  induction l with
  | nil => simp [insertCell]
  | cons z zs ih =>
    by_cases h : cellLeb x z = true
    · simp [insertCell, h]
    · simp only [insertCell, if_neg h, List.mem_cons, ih]
      tauto

theorem mem_sortCells {y : Cell} {l : List Cell} :
    y ∈ sortCells l ↔ y ∈ l := by
  induction l with
  | nil => simp [sortCells]
  | cons z zs ih => simp [sortCells, mem_insertCell, ih]

theorem length_filter_lt_of_exists {α : Type} (l : List α) (p : α → Bool)
    (h : ∃ x ∈ l, p x = false) : (l.filter p).length < l.length := by
  induction l with
  | nil => simp at h
  | cons a as ih =>
    rcases h with ⟨x, hx, hpx⟩
    rcases List.mem_cons.mp hx with rfl | hmem
    · rw [List.filter_cons, if_neg (by simp [hpx])]
      have := List.length_filter_le p as
      simp
      omega
    · by_cases ha : p a = true
      · rw [List.filter_cons, if_pos (by simp [ha])]
        have := ih ⟨x, hmem, hpx⟩
        simp
        omega
      · rw [List.filter_cons, if_neg (by simp [ha])]
        have := List.length_filter_le p as
        simp
        omega

theorem count_true_map_beq (cells : List Cell) (x : Cell) :
    (cells.map (fun c => c == x)).count true = cells.count x := by
  induction cells with
  | nil => rfl
  | cons c cs ih =>
    by_cases h : c = x
    · simp [List.count_cons, h, ih]
    · simp [List.count_cons, h, ih]

/-- C2: for a composite header label the normalizer does not merely join
the surviving parts with " - ": it also strips the joined string, so the
claim's predicted output differs on a part with leading whitespace. -/
theorem flatten_counterexample :
    flattenOne (Label.composite [" a", "b"]) ≠
      flattenOneClaim (Label.composite [" a", "b"]) := by
  decide

/-- C2 (amended): for every composite header label, the normalizer
discards the parts whose string form is the missing-value marker, joins
the remaining parts with " - " and strips the surrounding whitespace of
the result; for every non-composite label it returns the trimmed string
form of the label. -/
theorem flatten_matches_amended (ls : List Label) :
    flattenColumns ls = ls.map flattenOneAmended := by
  have h : flattenOne = flattenOneAmended := by
    funext l
    cases l <;> rfl
  simp [flattenColumns, h]

/-- C6: on a composite that becomes empty after discarding the
missing-value-marker parts, the normalizer returns the empty string, which
is not the stringified original label, so there is no fallback. -/
theorem flatten_empty_composite_counterexample :
    flattenOne (Label.composite ["nan", "nan"]) = "" ∧
    flattenOne (Label.composite ["nan", "nan"]) ≠
      Label.pyStr (Label.composite ["nan", "nan"]) := by
  decide

/-- C6 (amended): for every composite header label that becomes empty
after discarding missing-value-marker parts, the column normalizer
returns the empty string (not the stringified original label); in all
cases it returns a string without raising an error. -/
theorem flatten_empty_composite (ps : List String)
    (h : ps.filter (fun p => p != "nan") = []) :
    flattenOne (Label.composite ps) = "" := by
  simp only [flattenOne]
  rw [h]
  rfl

theorem flatten_empty_composite_witness :
    flattenOne (Label.composite ["nan"]) = "" :=
  flatten_empty_composite ["nan"] (by decide)

/-- C7: on an empty filtered view with an employment-status column, the
most-common-employment metric takes the sentinel branch and yields
"N/A" without failing. -/
theorem mode_empty_view (t : Table) (_hcol : "Employment Status" ∈ t.cols)
    (hempty : t.rows = []) :
    modeMetricResult (colCells t "Employment Status") = Except.ok "N/A" := by
  simp [colCells, hempty, modeMetricResult]

theorem mode_empty_view_witness :
    modeMetricResult (colCells t7 "Employment Status") = Except.ok "N/A" :=
  mode_empty_view t7 (by decide) rfl

/-- C10: on a non-empty view whose employment-status column is entirely
missing, the mode metric drops the missing values, indexes position 0 of
the resulting empty mode list, and fails with a KeyError instead of
producing the "N/A" sentinel. -/
theorem mode_all_missing_raises (t : Table)
    (_hcol : "Employment Status" ∈ t.cols) (hne : t.rows ≠ [])
    (hna : ∀ r ∈ t.rows, getCol t.cols r "Employment Status" = Cell.na) :
    modeMetricResult (colCells t "Employment Status") =
      Except.error "KeyError: 0" := by
  have hcells : ∀ x ∈ colCells t "Employment Status", x = Cell.na := by
    intro x hx
    rcases List.mem_map.mp hx with ⟨r, hr, rfl⟩
    exact hna r hr
  have hcne : colCells t "Employment Status" ≠ [] := by
    simp [colCells, hne]
  have hfilter :
      (colCells t "Employment Status").filter (fun x => x != Cell.na) = [] := by
    rw [List.filter_eq_nil_iff]
    intro a ha
    simp [hcells a ha]
  have hempty : (colCells t "Employment Status").isEmpty = false := by
    simpa [List.isEmpty_iff] using hcne
  simp [modeMetricResult, seriesMode, hfilter, hempty, sortCells]

theorem mode_all_missing_raises_witness :
    modeMetricResult (colCells t10 "Employment Status") =
      Except.error "KeyError: 0" :=
  mode_all_missing_raises t10 (by decide) (by decide) (by decide)

/-- C1: for every record table and filter selection, the filtered view
keeps only rows of the record table, its row count is at most the record
table's, its column set equals the record table's, and every retained row
satisfies every active categorical membership predicate and the inclusive
age-range predicate. -/
theorem filter_engine_invariants (tAll : Table) (fs : FilterSelection) :
    (applyFilters tAll fs).cols = tAll.cols ∧
    (applyFilters tAll fs).rows.Sublist tAll.rows ∧
    (applyFilters tAll fs).rows.length ≤ tAll.rows.length ∧
    ∀ r ∈ (applyFilters tAll fs).rows,
      (∀ c ∈ filterCols, c ∈ tAll.cols →
        cellIsin (getCol tAll.cols r c) (fs.catSel c) = true) ∧
      (ageCol ∈ tAll.cols →
        cellBetween (getCol tAll.cols r ageCol) fs.ageLo fs.ageHi = true) := by
  have hvcols : (filterCols.foldl (catFilterStep tAll fs.catSel) tAll).cols = tAll.cols :=
    foldCat_cols tAll fs.catSel filterCols tAll
  rw [applyFilters_eq]
  by_cases hage : ageCol ∈ tAll.cols
  · rw [if_pos hage]
    have hsub :
        ((filterCols.foldl (catFilterStep tAll fs.catSel) tAll).filterRows
          (fun r => cellBetween
            (getCol (filterCols.foldl (catFilterStep tAll fs.catSel) tAll).cols r ageCol)
            fs.ageLo fs.ageHi)).rows.Sublist tAll.rows :=
      (filterRows_sublist _ _).trans (foldCat_sublist tAll fs.catSel filterCols tAll)
    refine ⟨by rw [filterRows_cols, hvcols], hsub, hsub.length_le, ?_⟩
    intro r hr
    have hfr := mem_filterRows hr
    have hcat := mem_foldCat tAll fs.catSel filterCols tAll r hfr.1
    refine ⟨hcat.2, fun _ => ?_⟩
    have := hfr.2
    rwa [hvcols] at this
  · rw [if_neg hage]
    have hsub := foldCat_sublist tAll fs.catSel filterCols tAll
    refine ⟨hvcols, hsub, hsub.length_le, ?_⟩
    intro r hr
    exact ⟨(mem_foldCat tAll fs.catSel filterCols tAll r hr).2,
      fun hmem => absurd hmem hage⟩

theorem filter_engine_invariants_witness :
    cellIsin (getCol t1.cols [Cell.str "Acme", Cell.num 30] "Company")
      (fs1.catSel "Company") = true ∧
    cellBetween (getCol t1.cols [Cell.str "Acme", Cell.num 30] ageCol)
      fs1.ageLo fs1.ageHi = true := by
  have h := (filter_engine_invariants t1 fs1).2.2.2
    [Cell.str "Acme", Cell.num 30] (by decide)
  exact ⟨h.1 "Company" (by decide) (by decide), h.2 (by decide)⟩

/-- C3: for every workbook whose sheets all parsed and have matching
normalized columns, the loaded record table is the row-wise concatenation
of the sheets, its row count is the sum of the sheets' row counts, and its
rows are re-indexed sequentially from 0. -/
theorem load_rowcount (sheets : List Sheet) (c0 : List String)
    (_hmatch : ∀ s ∈ sheets, cleanCols (flattenColumns s.cols) = c0) :
    (loadExcelAny sheets).rows = (sheets.map Sheet.rows).flatten ∧
    (loadExcelAny sheets).rows.length =
      ((sheets.map (fun s => s.rows.length)).sum) ∧
    (loadExcelAny sheets).index =
      List.range ((sheets.map (fun s => s.rows.length)).sum) := by
  have hm1 : List.map (Table.rows ∘ normFrame) sheets = List.map Sheet.rows sheets :=
    List.map_congr_left fun s _ => rfl
  have hm2 : List.map ((fun f : Table => f.rows.length) ∘ normFrame) sheets
      = List.map (fun s => s.rows.length) sheets :=
    List.map_congr_left fun s _ => rfl
  have hm3 : List.map (List.length ∘ Sheet.rows) sheets
      = List.map (fun s => s.rows.length) sheets :=
    List.map_congr_left fun s _ => rfl
  have hrows : (loadExcelAny sheets).rows = (sheets.map Sheet.rows).flatten := by
    simp only [loadExcelAny, concatIgnoreIndex, List.map_map]
    rw [hm1]
  have hidx : (loadExcelAny sheets).index =
      List.range ((sheets.map (fun s => s.rows.length)).sum) := by
    simp only [loadExcelAny, concatIgnoreIndex, List.map_map]
    rw [hm2]
  refine ⟨hrows, ?_, hidx⟩
  rw [hrows, List.length_flatten, List.map_map, hm3]

theorem load_rowcount_witness :
    (loadExcelAny [sheetA, sheetB]).rows.length =
      (([sheetA, sheetB].map (fun s => s.rows.length)).sum) :=
  (load_rowcount [sheetA, sheetB] ["Company", "Age"] (by decide)).2.1

/-- C9: for a categorical filter column present in the table, the offered
options are the column's distinct non-missing values, so under the default
all-selected selection every row whose value in that column is missing is
excluded, and the default selection is not a no-op on a table with a
missing value in that column. -/
theorem default_filter_excludes_missing (t : Table) (c : String)
    (_hc : c ∈ filterCols) (hcol : c ∈ t.cols)
    (hwf : t.index.length = t.rows.length) :
    (∀ r ∈ (catFilterStep t (fun c2 => defaultOptions t c2) t c).rows,
        getCol t.cols r c ≠ Cell.na) ∧
    ((∃ r ∈ t.rows, getCol t.cols r c = Cell.na) →
      (catFilterStep t (fun c2 => defaultOptions t c2) t c).rows.length <
        t.rows.length) := by
  have hstep : catFilterStep t (fun c2 => defaultOptions t c2) t c =
      t.filterRows (fun r => cellIsin (getCol t.cols r c) (defaultOptions t c)) := by
    unfold catFilterStep
    rw [if_pos hcol]
  have hrows : (catFilterStep t (fun c2 => defaultOptions t c2) t c).rows =
      t.rows.filter (fun r => cellIsin (getCol t.cols r c) (defaultOptions t c)) := by
    rw [hstep, filterRows_rows_eq hwf]
  constructor
  · intro r hr hna
    rw [hrows] at hr
    have hp := (List.mem_filter.mp hr).2
    rw [hna] at hp
    simp [cellIsin] at hp
  · rintro ⟨r, hrmem, hrna⟩
    rw [hrows]
    apply length_filter_lt_of_exists
    refine ⟨r, hrmem, ?_⟩
    rw [hrna]
    rfl

theorem default_filter_excludes_missing_witness :
    (catFilterStep t9 (fun c2 => defaultOptions t9 c2) t9 "Company").rows.length <
      t9.rows.length :=
  (default_filter_excludes_missing t9 "Company" (by decide) (by decide)
      (by decide)).2 ⟨[Cell.na], by decide, by decide⟩

theorem chart5_ok_iff (t : Table) :
    (∃ cs, chart5 t = Except.ok cs) ↔
      (("Fuel Expenses (EGP)" ∈ t.cols ∧ "Company" ∈ t.cols) →
        ∀ c ∈ expenseCols, c ∈ t.cols) := by
  unfold chart5
  by_cases h1 : ("Fuel Expenses (EGP)" ∈ t.cols ∧ "Company" ∈ t.cols)
  · rw [if_pos h1]
    by_cases h2 : expenseCols.all (fun c => decide (c ∈ t.cols)) = true
    · rw [if_pos h2]
      simp only [List.all_eq_true, decide_eq_true_eq] at h2
      exact ⟨fun _ _ => h2, fun _ => ⟨_, rfl⟩⟩
    · rw [if_neg h2]
      constructor
      · rintro ⟨cs, hcs⟩
        exact absurd hcs (by simp)
      · intro hall
        exfalso
        apply h2
        simp only [List.all_eq_true, decide_eq_true_eq]
        exact hall h1
  · rw [if_neg h1]
    exact ⟨fun _ hc => absurd hc h1, fun _ => ⟨_, rfl⟩⟩

theorem buildCharts_ok_iff_chart5 (t : Table) :
    (∃ cs, buildCharts t = Except.ok cs) ↔ (∃ cs, chart5 t = Except.ok cs) := by
  unfold buildCharts
  cases h : chart5 t with
  | ok c5 => simp
  | error e => simp

/-- C4 (counterexample): on a view that has the company and fuel-expense
columns but lacks the maintenance-cost column, the chart-building block
fails with a KeyError instead of silently omitting the stacked expense
chart. -/
theorem charts_counterexample :
    "Maintenance Costs (EGP)" ∉ t4.cols ∧
    buildCharts t4 = Except.error "KeyError" := by
  decide

/-- C4 (amended): charts are built or silently omitted according to their
guard columns and charts 1-4 never fail, but the stacked expense chart
reads three expense columns its guard does not check: the chart build
succeeds exactly when, whenever the fuel-expense and company columns are
both present, all four expense columns are present; otherwise it fails
with a KeyError. -/
theorem charts_build_condition (t : Table) :
    (∃ cs, buildCharts t = Except.ok cs) ↔
      (("Fuel Expenses (EGP)" ∈ t.cols ∧ "Company" ∈ t.cols) →
        ∀ c ∈ expenseCols, c ∈ t.cols) :=
  (buildCharts_ok_iff_chart5 t).trans (chart5_ok_iff t)

theorem charts_build_condition_witness :
    ∃ cs, buildCharts t4ok = Except.ok cs :=
  (charts_build_condition t4ok).mpr (by decide)

theorem filter_panelBase (t : Table) :
    (panelBase t).filter (fun p => p.1 != "Most Common Employment") =
      panelBase t := by
  unfold panelBase deliveriesLine insuranceLine netIncomeLine
  by_cases h1 : "Deliveries per day" ∈ t.cols <;>
  by_cases h2 : "Medical Insurance" ∈ t.cols <;>
  by_cases h3 : netIncomeCol ∈ t.cols <;>
  simp [h1, h2, h3]

theorem map_panelBase (t : Table) :
    (panelBase t).map (fun p => p.1 ++ ": " ++ p.2) = pdfMetricLines t := by
  unfold panelBase pdfMetricLines deliveriesLine insuranceLine netIncomeLine
  by_cases h1 : "Deliveries per day" ∈ t.cols <;>
  by_cases h2 : "Medical Insurance" ∈ t.cols <;>
  by_cases h3 : netIncomeCol ∈ t.cols <;>
  simp [h1, h2, h3]

/-- C5 (counterexample): on a view with an employment-status column, the
metrics panel renders the most-common-employment line but the PDF export
contains no corresponding text line: the exported KPI lines are not all
the panel's metric lines. -/
theorem pdf_metrics_counterexample :
    panelMetrics t5 = Except.ok [("Most Common Employment", "Courier")] ∧
    pdfMetricLines t5 = [] := by
  decide

/-- C5 (amended): the PDF export contains, with the same computed value
and formatting, exactly the metric lines of the on-screen panel other than
the most-common-employment line, which is never exported. -/
theorem pdf_metrics_match (t : Table) (ms : List (String × String))
    (h : panelMetrics t = Except.ok ms) :
    pdfMetricLines t =
      (ms.filter (fun p => p.1 != "Most Common Employment")).map
        (fun p => p.1 ++ ": " ++ p.2) := by
  unfold panelMetrics at h
  by_cases h4 : "Employment Status" ∈ t.cols
  · rw [if_pos h4] at h
    cases hm : modeMetricResult (colCells t "Employment Status") with
    | ok m =>
      rw [hm] at h
      simp only [Except.ok.injEq] at h
      subst h
      rw [List.filter_append, filter_panelBase]
      have hsing : ([(("Most Common Employment" : String), m)].filter
          (fun p => p.1 != "Most Common Employment")) = [] := by simp
      rw [hsing, List.append_nil, map_panelBase]
    | error e =>
      rw [hm] at h
      simp at h
  · rw [if_neg h4] at h
    simp only [Except.ok.injEq] at h
    subst h
    rw [filter_panelBase, map_panelBase]

theorem pdf_metrics_match_witness :
    pdfMetricLines t5 =
      (([("Most Common Employment", "Courier")] : List (String × String)).filter
        (fun p => p.1 != "Most Common Employment")).map
        (fun p => p.1 ++ ": " ++ p.2) :=
  pdf_metrics_match t5 [("Most Common Employment", "Courier")] (by decide)

/-- C8: when the medical-insurance column exists and the filtered view is
non-empty, the insurance metric equals 100 times the number of rows whose
value in that column is the literal string "Yes", divided by the view's
total row count. -/
theorem insurance_pct_eq (t : Table) (_hcol : "Medical Insurance" ∈ t.cols)
    (hrows : t.rows ≠ []) :
    insurancePct t =
      some ((((colCells t "Medical Insurance").count (Cell.str "Yes") : Rat)) * 100 /
        (t.rows.length : Rat)) := by
  have hne : ((colCells t "Medical Insurance").map
      (fun c => c == Cell.str "Yes")).isEmpty = false := by
    simp [colCells, List.isEmpty_iff, hrows]
  have hcount := count_true_map_beq (colCells t "Medical Insurance") (Cell.str "Yes")
  have hlen : (colCells t "Medical Insurance").length = t.rows.length := by
    simp [colCells]
  unfold insurancePct boolMean
  rw [hne]
  simp only [Bool.false_eq_true, if_false, hcount, List.length_map, hlen]
  simp [div_mul_eq_mul_div]

theorem insurance_pct_witness : insurancePct t8 = some 75 := by
  have h := insurance_pct_eq t8 (by decide) (by decide)
  have hc : (colCells t8 "Medical Insurance").count (Cell.str "Yes") = 3 := by decide
  have hl : t8.rows.length = 4 := by decide
  rw [h, hc, hl]
  norm_num

end Vans
